import Mathlib

/-!
Verification of the pattern-splitter tiling engine
(`src/pattern-splitter.ts`): unit normalization, SVG dimension
resolution, grid planning, tile coordinate mapping, border
instructions, and the page-composition loop of `generateTiledPDF`.

Modelling conventions (shallow embedding of the TypeScript source):

* JavaScript numbers are modelled as exact rationals (`ℚ`); IEEE-754
  rounding is not modelled (all quantities in the claims are exact in
  both semantics).
* At parse boundaries a JS value that is `null` or `NaN` is modelled
  as `none : Option ℚ`; both are falsy and neither is a usable
  number, which is the only way the source observes them.
* Division by zero follows the `ℚ` convention `x / 0 = 0`. In JS,
  `x / 0` is `±Infinity` (for `x ≠ 0`), which makes the tile loop
  bound infinite, so the program never returns normally on such
  inputs. Accordingly, no theorem below states anything about inputs
  with `usableW = 0`, `usableH = 0`, or a zero viewBox extent; every
  statement carries sign hypotheses keeping those denominators
  nonzero.
-/

/-- `PX_TO_MM = 25.4 / 96`, the CSS pixel → millimeter factor
(source line 219). -/
def PX_TO_MM : ℚ := 25.4 / 96

/-- Value of a digit list read in base 10 (most significant first). -/
def digitsToNat (ds : List Char) : ℕ :=
  ds.foldl (fun a c => a * 10 + (c.toNat - 48)) 0

/-- Model of the JS builtin `parseFloat`: skip leading whitespace,
optional sign, integer digits, optional fraction, optional exponent;
`none` models `NaN` (no digits found). The JS extras `Infinity` and
float rounding are not modelled (no claim involves them). -/
def jsParseFloat (s : List Char) : Option ℚ :=
  let cs := s.dropWhile Char.isWhitespace
  let sc : ℚ × List Char :=
    match cs with
    | '-' :: rest => (-1, rest)
    | '+' :: rest => (1, rest)
    | _ => (1, cs)
  let sign := sc.1
  let cs1 := sc.2
  let intDs := cs1.takeWhile Char.isDigit
  let cs2 := cs1.dropWhile Char.isDigit
  let fr : List Char × List Char :=
    match cs2 with
    | '.' :: rest => (rest.takeWhile Char.isDigit, rest.dropWhile Char.isDigit)
    | _ => ([], cs2)
  let fracDs := fr.1
  let cs3 := fr.2
  if intDs.isEmpty && fracDs.isEmpty then none
  else
    let mant : ℚ := sign * ((digitsToNat intDs : ℚ) + (digitsToNat fracDs : ℚ) / 10 ^ fracDs.length)
    let expo : ℤ :=
      match cs3 with
      | e :: rest =>
        if e = 'e' ∨ e = 'E' then
          let es : ℤ × List Char :=
            match rest with
            | '-' :: r2 => (-1, r2)
            | '+' :: r2 => (1, r2)
            | _ => (1, rest)
          let eDs := es.2.takeWhile Char.isDigit
          if eDs.isEmpty then 0 else es.1 * digitsToNat eDs
        else 0
      | [] => 0
    some (mant * (10 : ℚ) ^ expo)

/-- ASCII lower-casing of one character (model of `toLowerCase`). -/
def lowerChar (c : Char) : Char :=
  if 'A' ≤ c ∧ c ≤ 'Z' then Char.ofNat (c.toNat + 32) else c

/-- ASCII lower-casing of a string's characters. -/
def lowerStr (s : List Char) : List Char := s.map lowerChar

/-- `hasSuffix s suf` models `s.endsWith(suf)`. -/
def hasSuffix (s suf : List Char) : Bool := List.isSuffixOf suf s

/-- `parseUnit` (source lines 271-281): convert a length string with
optional unit suffix to millimeters. `none` models both JS `null`
(missing / empty input) and `NaN` (unparseable numeric part); the
source returns `NaN * factor = NaN` in the latter case, and the two
are observationally identical to every caller (falsy non-numbers). -/
def parseUnit (val : Option String) : Option ℚ :=
  match val with
  | none => none
  | some v =>
    if v = "" then none
    else
      let l := lowerStr v.data
      match jsParseFloat l with
      | none => none
      | some num =>
        if hasSuffix l ['m', 'm'] then some num
        else if hasSuffix l ['c', 'm'] then some (num * 10)
        else if hasSuffix l ['i', 'n'] then some (num * 25.4)
        else if hasSuffix l ['p', 't'] then some (num * (25.4 / 72))
        else if hasSuffix l ['p', 'c'] then some (num * (25.4 / 6))
        else some (num * PX_TO_MM)

/-- JS falsiness of a `number | null` value: `null`, `NaN` and `0`
are falsy. -/
def isFalsy : Option ℚ → Bool
  | none => true
  | some q => q == 0

/-- Split a character list at separators, keeping empty fragments
(model of `String.prototype.split` with a single-character regex). -/
def splitAtSeps (p : Char → Bool) : List Char → List (List Char)
  | [] => [[]]
  | c :: rest =>
    let r := splitAtSeps p rest
    if p c then [] :: r
    else
      match r with
      | [] => [[c]]
      | h :: t => (c :: h) :: t

/-- `viewBox.split(/\s|,/).filter(Boolean).map(parseFloat)`
(source lines 292, 339-341). -/
def splitFloats (s : String) : List (Option ℚ) :=
  ((splitAtSeps (fun c => c.isWhitespace || c = ',') s.data).filter
    (fun t => ¬ t.isEmpty)).map jsParseFloat

/-- The SVG element as observed by the layout engine: its `width`,
`height` and `viewBox` attributes (`none` = attribute absent). -/
structure SvgAttrs where
  width : Option String
  height : Option String
  viewBox : Option String

/-- Final defaulting step `if (!x) x = d` of `getSvgDimensionsInMM`:
replace a falsy value (`null` / `NaN` / `0`) by the default. -/
def orDefault (v : Option ℚ) (d : ℚ) : ℚ :=
  match v with
  | none => d
  | some q => if q = 0 then d else q

/-- `getSvgDimensionsInMM` (source lines 283-303): resolve each axis
from the explicit attribute, else from the viewBox extent times
`PX_TO_MM`, else default to 210 / 297. The guard
`(!widthMM || !heightMM) && viewBox` requires the `viewBox`
attribute to be present and non-empty (truthy). -/
def getSvgDimensionsInMM (svg : SvgAttrs) : ℚ × ℚ :=
  let widthMM := parseUnit svg.width
  let heightMM := parseUnit svg.height
  let wh : Option ℚ × Option ℚ :=
    match svg.viewBox with
    | some vb =>
      if (isFalsy widthMM ∨ isFalsy heightMM) ∧ vb ≠ "" then
        let parts := splitFloats vb
        if parts.length = 4 then
          (if isFalsy widthMM then (parts.getD 2 none).map (· * PX_TO_MM) else widthMM,
           if isFalsy heightMM then (parts.getD 3 none).map (· * PX_TO_MM) else heightMM)
        else (widthMM, heightMM)
      else (widthMM, heightMM)
    | none => (widthMM, heightMM)
  (orDefault wh.1 210, orDefault wh.2 297)

/-- Border instruction for one tile edge (source line 221). -/
inductive BorderInstruction
  | glue
  | cut
  | none
  deriving DecidableEq

/-- The four per-edge instructions of one tile (source lines 223-228). -/
structure TileBorderInstructions where
  top : BorderInstruction
  right : BorderInstruction
  bottom : BorderInstruction
  left : BorderInstruction
  deriving DecidableEq

/-- `getTileBorderInstructions` (source lines 244-269): cut/glue
instructions from the tile's zero-based grid position. -/
def getTileBorderInstructions (row col totalRows totalCols : ℤ) :
    TileBorderInstructions :=
  let isFirstRow := row = 0
  let isLastRow := row = totalRows - 1
  let isFirstCol := col = 0
  let isLastCol := col = totalCols - 1
  { top := if isFirstRow then .none else .cut
    right := if isLastCol then .none else .glue
    bottom := if isLastRow then .none else .glue
    left := if isFirstCol then .none else .cut }

example : parseUnit (some "10cm") = some 100 := by with_unfolding_all rfl
example : parseUnit (some "96") = some 25.4 := by with_unfolding_all rfl
example : getSvgDimensionsInMM ⟨none, none, none⟩ = (210, 297) := by with_unfolding_all rfl
example : getSvgDimensionsInMM ⟨none, none, some "0 0 96 96"⟩ = (25.4, 25.4) := by with_unfolding_all rfl


/-- `Math.round`: round half up (toward +∞). -/
def jsRound (x : ℚ) : ℤ := ⌊x + 1 / 2⌋

/-- Input of `generateTiledPDF` (source lines 204-210); the SVG text
is abstracted by the three attributes its parsed document exposes to
the layout engine, and the optional progress callback by its
presence. -/
structure PdfOptions where
  svg : SvgAttrs
  paperWidth : ℚ
  paperHeight : ℚ
  margin : ℚ
  hasProgress : Bool

/-- Observable effects of one conversion, in order: appending a page
(`pdf.addPage`), invoking the progress callback (`onProgress`), and
issuing a tile's render request (`svg2pdf(tileSvg, ...)`, identified
by the tile viewBox set on the clone).  Drawing-primitive calls
(lines, rects, text, diamonds) carry no claim and are not recorded. -/
inductive Event
  | addPage
  | progress (pct : ℤ) (msg : String)
  | render (x y w h : Option ℚ)

/-- Predicate picking out `addPage` events. -/
def isAddPage : Event → Bool
  | .addPage => true
  | _ => false

/-- Predicate picking out `progress` events. -/
def isProgress : Event → Bool
  | .progress _ _ => true
  | _ => false

/-- Predicate picking out `render` events. -/
def isRender : Event → Bool
  | .render _ _ _ _ => true
  | _ => false

/-- Result of `generateTiledPDF` (source lines 212-217): JS numbers
that can be `NaN` (from a malformed viewBox) are `Option`-valued. -/
structure PdfResult where
  tiles : Option ℤ
  rows : Option ℤ
  cols : ℤ
  trace : List Event

/-- ViewBox normalization (source lines 330-341): if the `viewBox`
attribute is absent it is set to `0 0 (w/PX_TO_MM) (h/PX_TO_MM)`
from the resolved size, then the attribute is split and parsed.
The source serializes and re-parses these four numbers through the
attribute string; the net effect is the four values themselves. -/
def effectiveViewBox (svg : SvgAttrs) (size : ℚ × ℚ) : List (Option ℚ) :=
  match svg.viewBox with
  | none => [some 0, some 0, some (size.1 / PX_TO_MM), some (size.2 / PX_TO_MM)]
  | some vb => splitFloats vb

/-- `usableW = paperWidth - 2 * margin` (source line 350). -/
def usableWidth (o : PdfOptions) : ℚ := o.paperWidth - 2 * o.margin

/-- `usableH = paperHeight - 2 * margin` (source line 351). -/
def usableHeight (o : PdfOptions) : ℚ := o.paperHeight - 2 * o.margin

/-- `svgWidthMM = size.w` (source lines 327-328). -/
def svgWidth (o : PdfOptions) : ℚ := (getSvgDimensionsInMM o.svg).1

/-- The parsed (normalized) viewBox parts of the document
(source lines 337-341). -/
def vbParts (o : PdfOptions) : List (Option ℚ) :=
  effectiveViewBox o.svg (getSvgDimensionsInMM o.svg)

/-- `const [vx, ...] = viewBox` (source line 364): first part. -/
def vbX (o : PdfOptions) : Option ℚ := (vbParts o).getD 0 none

/-- Second viewBox part `vy`. -/
def vbY (o : PdfOptions) : Option ℚ := (vbParts o).getD 1 none

/-- Third viewBox part `vbW = viewBox[2]` (source line 342). -/
def vbWpart (o : PdfOptions) : Option ℚ := (vbParts o).getD 2 none

/-- Fourth viewBox part `vbH = viewBox[3]` (source line 343). -/
def vbHpart (o : PdfOptions) : Option ℚ := (vbParts o).getD 3 none

/-- `svgHeightMM = svgWidthMM / vbAspect`, `vbAspect = vbW / vbH`
(source lines 344-347); `none` models `NaN` (missing viewBox part). -/
def svgHeight (o : PdfOptions) : Option ℚ :=
  match vbWpart o, vbHpart o with
  | some a, some b => some (svgWidth o / (a / b))
  | _, _ => none

/-- `cols = Math.ceil(svgWidthMM / usableW)` (source line 352). -/
def gridCols (o : PdfOptions) : ℤ := ⌈svgWidth o / usableWidth o⌉

/-- `rows = Math.ceil(svgHeightMM / usableH)` (source line 353). -/
def gridRows (o : PdfOptions) : Option ℤ :=
  (svgHeight o).map (fun h => ⌈h / usableHeight o⌉)

/-- `totalTiles = cols * rows` (source line 354). -/
def totalTiles (o : PdfOptions) : Option ℤ :=
  (gridRows o).map (fun rv => gridCols o * rv)

/-- `scaleX = vw / svgWidthMM` (source line 365). -/
def scaleX (o : PdfOptions) : Option ℚ :=
  (vbWpart o).map (fun a => a / svgWidth o)

/-- `scaleY = vh / svgHeightMM` (source line 366). -/
def scaleY (o : PdfOptions) : Option ℚ :=
  match vbHpart o, svgHeight o with
  | some b, some hmv => some (b / hmv)
  | _, _ => none

/-- Number of outer-loop iterations `for (r = 0; r < rows; ...)`:
zero when `rows` is `NaN` or nonpositive (source line 370). -/
def rowsN (o : PdfOptions) : ℕ := ((gridRows o).getD 0).toNat

/-- Number of inner-loop iterations (source line 371). -/
def colsN (o : PdfOptions) : ℕ := (gridCols o).toNat

/-- Tile sub-rectangle origin coordinate:
`tileVx = vx + startX_MM * scaleX` with `startX_MM = c * usableW`
(source lines 379-382); `none` propagates `NaN` components. -/
def tileCoord (v : Option ℚ) (startMM : ℚ) (scale : Option ℚ) : Option ℚ :=
  match v, scale with
  | some vv, some s => some (vv + startMM * s)
  | _, _ => none

/-- Tile sub-rectangle extent `tileVw = usableW * scaleX`
(source lines 383-384). -/
def tileExtent (usable : ℚ) (scale : Option ℚ) : Option ℚ :=
  scale.map (fun s => usable * s)

/-- Events of one iteration of the tile loop body (source lines
370-398): `addPage` for every tile but the first, the progress
callback (when supplied) with
`pct = Math.round(processedCount / totalTiles * 100)` and
`processedCount = r * cols + c + 1` (its running 1-based row-major
value), then the render request for the tile's sub-rectangle. -/
def tileBlock (hasP : Bool) (vx vy sX sY : Option ℚ)
    (usableW usableH total : ℚ) (cN r c : ℕ) : List Event :=
  let processedCount : ℕ := r * cN + c + 1
  (if r > 0 ∨ c > 0 then [Event.addPage] else []) ++
    (if hasP then
      [Event.progress (jsRound ((processedCount : ℚ) / total * 100))
        ("Generating Tile " ++ toString (r + 1) ++ "-" ++ toString (c + 1) ++ "...")]
     else []) ++
    [Event.render (tileCoord vx ((c : ℚ) * usableW) sX)
      (tileCoord vy ((r : ℚ) * usableH) sY)
      (tileExtent usableW sX) (tileExtent usableH sY)]

/-- The full event trace of the row-major tile loop
(source lines 370-663). -/
def pdfTrace (o : PdfOptions) : List Event :=
  (List.range (rowsN o)).flatMap (fun r =>
    (List.range (colsN o)).flatMap (fun c =>
      tileBlock o.hasProgress (vbX o) (vbY o) (scaleX o) (scaleY o)
        (usableWidth o) (usableHeight o)
        (((totalTiles o).getD 0 : ℤ) : ℚ) (colsN o) r c))

/-- `generateTiledPDF` (source lines 305-673): margin validation
first (line 308, before the dynamic imports of the PDF libraries),
then dimension resolution, viewBox normalization, grid planning, and
the row-major tile loop.  The `Except` error is the rejection of the
returned promise; `.ok` carries the returned metadata and the trace
of observable effects. -/
def generateTiledPDF (o : PdfOptions) : Except String PdfResult :=
  if o.margin < 10 then
    .error "Margin must be at least 10mm for proper labeling."
  else
    .ok { tiles := totalTiles o, rows := gridRows o, cols := gridCols o,
          trace := pdfTrace o }

/-- The worked example of the spec: a 400×400 mm document (with its
native viewBox) on 210×297 mm paper with a 10 mm margin. -/
def ex400 : PdfOptions :=
  { svg := ⟨some "400mm", some "400mm", some "0 0 400 400"⟩
    paperWidth := 210
    paperHeight := 297
    margin := 10
    hasProgress := true }

example : gridCols ex400 = 3 := by with_unfolding_all rfl
example : gridRows ex400 = some 2 := by with_unfolding_all rfl
example :
    (generateTiledPDF ex400).map (fun r => (r.tiles, r.trace.countP isAddPage)) =
      .ok (some 6, 5) := by with_unfolding_all rfl

/-- `orDefault` never returns zero when the default is nonzero. -/
lemma orDefault_ne_zero (v : Option ℚ) (d : ℚ) (hd : d ≠ 0) :
    orDefault v d ≠ 0 := by
  unfold orDefault
  cases v with
  | none => exact hd
  | some q =>
    by_cases hq : q = 0
    · simp only [hq, if_pos rfl]
      exact hd
    · simp only [if_neg hq]
      exact hq

/-- C2: for every grid position with `0 ≤ row < totalRows` and
`0 ≤ col < totalCols` (both totals ≥ 1), `getTileBorderInstructions`
returns `top = cut` unless `row = 0` (then `none`), `left = cut`
unless `col = 0`, `right = glue` unless `col = totalCols - 1`,
`bottom = glue` unless `row = totalRows - 1`; in particular the
single tile of a 1×1 grid gets all four edges `none`. -/
theorem C2_tile_border_instructions (row col totalRows totalCols : ℤ)
    (h1 : 0 ≤ row) (h2 : row < totalRows) (h3 : 0 ≤ col) (h4 : col < totalCols)
    (h5 : 1 ≤ totalRows) (h6 : 1 ≤ totalCols) :
    ((getTileBorderInstructions row col totalRows totalCols).top =
      (if row = 0 then .none else .cut)) ∧
    ((getTileBorderInstructions row col totalRows totalCols).left =
      (if col = 0 then .none else .cut)) ∧
    ((getTileBorderInstructions row col totalRows totalCols).right =
      (if col = totalCols - 1 then .none else .glue)) ∧
    ((getTileBorderInstructions row col totalRows totalCols).bottom =
      (if row = totalRows - 1 then .none else .glue)) ∧
    getTileBorderInstructions 0 0 1 1 = ⟨.none, .none, .none, .none⟩ :=
  ⟨rfl, rfl, rfl, rfl, rfl⟩

/-- Witness for C2 at the bottom-left tile of a 2×2 grid. -/
theorem C2_tile_border_instructions_witness :
    ((0:ℤ) ≤ 1 ∧ (1:ℤ) < 2 ∧ (0:ℤ) ≤ 0 ∧ (0:ℤ) < 2 ∧ (1:ℤ) ≤ 2 ∧ (1:ℤ) ≤ 2) ∧
    (((getTileBorderInstructions 1 0 2 2).top =
      (if (1:ℤ) = 0 then .none else .cut)) ∧
    ((getTileBorderInstructions 1 0 2 2).left =
      (if (0:ℤ) = 0 then .none else .cut)) ∧
    ((getTileBorderInstructions 1 0 2 2).right =
      (if (0:ℤ) = 2 - 1 then .none else .glue)) ∧
    ((getTileBorderInstructions 1 0 2 2).bottom =
      (if (1:ℤ) = 2 - 1 then .none else .glue)) ∧
    getTileBorderInstructions 0 0 1 1 = ⟨.none, .none, .none, .none⟩) :=
  ⟨⟨by norm_num, by norm_num, le_refl 0, by norm_num, by norm_num, by norm_num⟩,
    C2_tile_border_instructions 1 0 2 2 (by norm_num) (by norm_num) (le_refl 0)
      (by norm_num) (by norm_num) (by norm_num)⟩

/-- C4: a margin below 10 mm is rejected immediately (the check is
the first statement of `generateTiledPDF`, before the dynamic
imports of the PDF libraries and before any layout computation) with
no partial output; a margin of at least 10 mm is never rejected by
this validation. -/
theorem C4_margin_validation (o : PdfOptions) :
    (o.margin < 10 →
      generateTiledPDF o =
        .error "Margin must be at least 10mm for proper labeling.") ∧
    (10 ≤ o.margin →
      generateTiledPDF o =
        .ok ⟨totalTiles o, gridRows o, gridCols o, pdfTrace o⟩) := by
  constructor
  · intro h
    simp [generateTiledPDF, h]
  · intro h
    simp [generateTiledPDF, not_lt.mpr h]

/-- Witness for C4: margin 9 is rejected, margin 10 is accepted. -/
theorem C4_margin_validation_witness :
    (({ ex400 with margin := 9 } : PdfOptions).margin < 10 ∧
      generateTiledPDF { ex400 with margin := 9 } =
        .error "Margin must be at least 10mm for proper labeling.") ∧
    (10 ≤ ex400.margin ∧
      generateTiledPDF ex400 =
        .ok ⟨totalTiles ex400, gridRows ex400, gridCols ex400, pdfTrace ex400⟩) :=
  ⟨⟨by norm_num [ex400], (C4_margin_validation _).1 (by norm_num [ex400])⟩,
    ⟨by norm_num [ex400], (C4_margin_validation _).2 (by norm_num [ex400])⟩⟩

/-- C10: `getSvgDimensionsInMM` never returns 0 for either axis (a
NaN can likewise never escape: every `none` is replaced by the
defaulting step, so the result is a genuine pair of rationals by
construction).  The concrete conjuncts exercise the fall-through: a
width attribute parsing to 0, unparseable attributes, and a viewBox
whose width extent is 0 all fall through to the defaults. -/
theorem C10_dimensions_never_zero :
    (∀ svg : SvgAttrs,
      (getSvgDimensionsInMM svg).1 ≠ 0 ∧ (getSvgDimensionsInMM svg).2 ≠ 0) ∧
    getSvgDimensionsInMM ⟨some "0mm", Option.none, Option.none⟩ = (210, 297) ∧
    getSvgDimensionsInMM ⟨some "abc", some "xyz", Option.none⟩ = (210, 297) ∧
    getSvgDimensionsInMM ⟨Option.none, Option.none, some "0 0 0 50"⟩ =
      (210, 50 * PX_TO_MM) := by
  refine ⟨fun svg => ⟨orDefault_ne_zero _ _ (by norm_num),
    orDefault_ne_zero _ _ (by norm_num)⟩, ?_, ?_, ?_⟩
  · with_unfolding_all rfl
  · with_unfolding_all rfl
  · with_unfolding_all rfl

/-- Input exhibiting `usableW < 0`: 15 mm paper width with a 10 mm
margin gives `usableW = -5`, yet the margins pass the 10 mm floor. -/
def exNegW : PdfOptions :=
  { svg := ⟨some "400mm", some "400mm", some "0 0 400 400"⟩
    paperWidth := 15
    paperHeight := 297
    margin := 10
    hasProgress := false }

/-- Counterexample to C3: with `usableW = -5 ≤ 0` (margins exceed the
paper), `generateTiledPDF` does not fail with a layout error; it
returns normally with `cols = ceil(400 / -5) = -80`, no tile
processed and no event issued. -/
theorem C3_counterexample :
    usableWidth exNegW = -5 ∧
    generateTiledPDF exNegW = .ok ⟨some (-160), some 2, -80, []⟩ := by
  constructor
  · with_unfolding_all rfl
  · with_unfolding_all rfl

/-- C3 (amended): `generateTiledPDF` performs no usable-area check.
When the usable width is negative (margins exceed the paper) and the
resolved document width is positive, it does not fail: it returns
normally with `cols ≤ 0`, processes no tile and appends no page.
(The `usableW ≤ 0` error message exists only in the UI grid preview,
`updateGridPreview` in `main.ts`, not in this function; `usableW = 0`
exactly makes the JS loop bound `Infinity` — no layout error there
either, the loop just never terminates normally.) -/
theorem C3_no_layout_error (o : PdfOptions) (hm : 10 ≤ o.margin)
    (hW : usableWidth o < 0) (hw : 0 < svgWidth o) :
    generateTiledPDF o =
      .ok ⟨totalTiles o, gridRows o, gridCols o, pdfTrace o⟩ ∧
    gridCols o ≤ 0 ∧ pdfTrace o = [] := by
  refine ⟨by simp [generateTiledPDF, not_lt.mpr hm], ?_, ?_⟩
  · have hdiv : svgWidth o / usableWidth o ≤ 0 :=
      le_of_lt (div_neg_of_pos_of_neg hw hW)
    exact Int.ceil_le.mpr (by exact_mod_cast hdiv)
  · have hc : colsN o = 0 := by
      have hdiv : svgWidth o / usableWidth o ≤ 0 :=
        le_of_lt (div_neg_of_pos_of_neg hw hW)
      have : gridCols o ≤ 0 := Int.ceil_le.mpr (by exact_mod_cast hdiv)
      unfold colsN
      omega
    unfold pdfTrace
    rw [hc]
    simp

/-- Witness for the amended C3 at the concrete 15×297 paper. -/
theorem C3_no_layout_error_witness :
    (10 ≤ exNegW.margin ∧ usableWidth exNegW < 0 ∧ 0 < svgWidth exNegW) ∧
    (generateTiledPDF exNegW =
      .ok ⟨totalTiles exNegW, gridRows exNegW, gridCols exNegW, pdfTrace exNegW⟩ ∧
    gridCols exNegW ≤ 0 ∧ pdfTrace exNegW = []) :=
  ⟨⟨by norm_num [exNegW], by with_unfolding_all decide, by with_unfolding_all decide⟩,
    C3_no_layout_error exNegW (by norm_num [exNegW])
      (by with_unfolding_all decide) (by with_unfolding_all decide)⟩

/-- C8: `parseUnit` multiplies the parsed numeric value by the suffix
factor (mm ×1, cm ×10, in ×25.4, pt ×25.4/72, pc ×25.4/6), treats an
unsuffixed or unrecognized-suffix numeric value as CSS pixels
(×25.4/96), and yields an unknown result (`none`, not zero) for a
missing, empty or unparseable input; concretely "10cm" → 100,
"1in" → 25.4, "96" → 25.4. -/
theorem C8_parseUnit_unit_factors :
    (∀ (s : String) (n : ℚ), s ≠ "" →
      jsParseFloat (lowerStr s.data) = some n →
      ((hasSuffix (lowerStr s.data) ['m', 'm'] = true →
        parseUnit (some s) = some n) ∧
       (hasSuffix (lowerStr s.data) ['m', 'm'] = false →
        hasSuffix (lowerStr s.data) ['c', 'm'] = true →
        parseUnit (some s) = some (n * 10)) ∧
       (hasSuffix (lowerStr s.data) ['m', 'm'] = false →
        hasSuffix (lowerStr s.data) ['c', 'm'] = false →
        hasSuffix (lowerStr s.data) ['i', 'n'] = true →
        parseUnit (some s) = some (n * 25.4)) ∧
       (hasSuffix (lowerStr s.data) ['m', 'm'] = false →
        hasSuffix (lowerStr s.data) ['c', 'm'] = false →
        hasSuffix (lowerStr s.data) ['i', 'n'] = false →
        hasSuffix (lowerStr s.data) ['p', 't'] = true →
        parseUnit (some s) = some (n * (25.4 / 72))) ∧
       (hasSuffix (lowerStr s.data) ['m', 'm'] = false →
        hasSuffix (lowerStr s.data) ['c', 'm'] = false →
        hasSuffix (lowerStr s.data) ['i', 'n'] = false →
        hasSuffix (lowerStr s.data) ['p', 't'] = false →
        hasSuffix (lowerStr s.data) ['p', 'c'] = true →
        parseUnit (some s) = some (n * (25.4 / 6))) ∧
       (hasSuffix (lowerStr s.data) ['m', 'm'] = false →
        hasSuffix (lowerStr s.data) ['c', 'm'] = false →
        hasSuffix (lowerStr s.data) ['i', 'n'] = false →
        hasSuffix (lowerStr s.data) ['p', 't'] = false →
        hasSuffix (lowerStr s.data) ['p', 'c'] = false →
        parseUnit (some s) = some (n * PX_TO_MM)))) ∧
    (∀ s : String, s ≠ "" → jsParseFloat (lowerStr s.data) = Option.none →
      parseUnit (some s) = Option.none) ∧
    parseUnit Option.none = Option.none ∧
    parseUnit (some "") = Option.none ∧
    parseUnit (some "10cm") = some 100 ∧
    parseUnit (some "1in") = some 25.4 ∧
    parseUnit (some "96") = some 25.4 := by
  refine ⟨?_, ?_, rfl, by with_unfolding_all rfl, by with_unfolding_all rfl,
    by with_unfolding_all rfl, by with_unfolding_all rfl⟩
  · intro s n hne hp
    refine ⟨?_, ?_, ?_, ?_, ?_, ?_⟩
    · intro h1
      simp [parseUnit, hne, hp, h1]
    · intro h1 h2
      simp [parseUnit, hne, hp, h1, h2]
    · intro h1 h2 h3
      simp [parseUnit, hne, hp, h1, h2, h3]
    · intro h1 h2 h3 h4
      simp [parseUnit, hne, hp, h1, h2, h3, h4]
    · intro h1 h2 h3 h4 h5
      simp [parseUnit, hne, hp, h1, h2, h3, h4, h5]
    · intro h1 h2 h3 h4 h5
      simp [parseUnit, hne, hp, h1, h2, h3, h4, h5]
  · intro s hne hp
    simp [parseUnit, hne, hp]

/-- Witness for C8 at the string "10cm" (the cm branch). -/
theorem C8_parseUnit_unit_factors_witness :
    (("10cm" : String) ≠ "" ∧
      jsParseFloat (lowerStr ("10cm" : String).data) = some 10 ∧
      hasSuffix (lowerStr ("10cm" : String).data) ['m', 'm'] = false ∧
      hasSuffix (lowerStr ("10cm" : String).data) ['c', 'm'] = true) ∧
    parseUnit (some "10cm") = some (10 * 10) :=
  ⟨⟨by decide, by with_unfolding_all rfl, by with_unfolding_all rfl,
      by with_unfolding_all rfl⟩,
    ((C8_parseUnit_unit_factors.1 "10cm" 10 (by decide)
      (by with_unfolding_all rfl)).2.1 (by with_unfolding_all rfl)
      (by with_unfolding_all rfl))⟩

/-- `orDefault` returns the default on a falsy value. -/
lemma orDefault_of_falsy (v : Option ℚ) (d : ℚ) (h : isFalsy v = true) :
    orDefault v d = d := by
  cases v with
  | none => rfl
  | some q =>
    have hq : q = 0 := by simpa [isFalsy] using h
    simp [orDefault, hq]

/-- `orDefault` on `none` is the default. -/
lemma orDefault_none (d : ℚ) : orDefault Option.none d = d := rfl

/-- Per-axis viewBox fallback value as the source computes it: the
`i`-th viewBox part times `PX_TO_MM`, available only when the
`viewBox` attribute is present, truthy, and splits into exactly four
parts (`none` otherwise). -/
def vbAxisExtent (svg : SvgAttrs) (i : ℕ) : Option ℚ :=
  match svg.viewBox with
  | some vb =>
    if vb ≠ "" ∧ (splitFloats vb).length = 4 then
      ((splitFloats vb).getD i Option.none).map (· * PX_TO_MM)
    else Option.none
  | none => Option.none

/-- The per-axis fallback chain in the spec's words (§4.1): prefer
the explicit attribute when it is a usable (truthy) number, else the
viewBox-derived value when usable, else the default.  Stated
spec-side for comparison with `getSvgDimensionsInMM`. -/
def resolveAxisSpec (attr vbe : Option ℚ) (d : ℚ) : ℚ :=
  orDefault (if isFalsy attr then vbe else attr) d

/-- C7: dimension resolution follows the per-axis fallback chain
attribute → viewBox·(25.4/96) → default (210 width / 297 height),
applied independently per axis - each axis of the result equals the
spec's per-axis chain evaluated on that axis's inputs alone - and
with no attributes and no viewBox the result is exactly (210, 297). -/
theorem C7_dimension_fallback_chain :
    (∀ svg : SvgAttrs,
      getSvgDimensionsInMM svg =
        (resolveAxisSpec (parseUnit svg.width) (vbAxisExtent svg 2) 210,
         resolveAxisSpec (parseUnit svg.height) (vbAxisExtent svg 3) 297)) ∧
    getSvgDimensionsInMM ⟨Option.none, Option.none, Option.none⟩ = (210, 297) := by
  constructor
  · intro svg
    unfold getSvgDimensionsInMM resolveAxisSpec vbAxisExtent
    cases hvb : svg.viewBox with
    | none =>
      by_cases hw : isFalsy (parseUnit svg.width) <;>
        by_cases hh : isFalsy (parseUnit svg.height) <;>
          simp [hw, hh, orDefault_of_falsy, orDefault_none]
    | some vb =>
      by_cases hvbe : vb = ""
      · by_cases hw : isFalsy (parseUnit svg.width) <;>
          by_cases hh : isFalsy (parseUnit svg.height) <;>
            simp [hvbe, hw, hh, orDefault_of_falsy, orDefault_none]
      · by_cases hlen : (splitFloats vb).length = 4
        · by_cases hw : isFalsy (parseUnit svg.width) <;>
            by_cases hh : isFalsy (parseUnit svg.height) <;>
              simp [hvbe, hlen, hw, hh, orDefault_of_falsy, orDefault_none]
        · by_cases hw : isFalsy (parseUnit svg.width) <;>
            by_cases hh : isFalsy (parseUnit svg.height) <;>
              simp [hvbe, hlen, hw, hh, orDefault_of_falsy, orDefault_none]
  · with_unfolding_all rfl

/-- Ceiling-division coverage: `ceil(w/u) * u ≥ w` for `u > 0`. -/
lemma le_ceil_mul (w u : ℚ) (hu : 0 < u) : w ≤ (⌈w / u⌉ : ℚ) * u :=
  (div_le_iff₀ hu).mp (Int.le_ceil _)

/-- One tile block contains one `addPage` event exactly when the
tile is not the first. -/
lemma countP_isAddPage_tileBlock (hp : Bool) (vx vy sx sy : Option ℚ)
    (uw uh tq : ℚ) (cN r c : ℕ) :
    (tileBlock hp vx vy sx sy uw uh tq cN r c).countP isAddPage =
      if r = 0 ∧ c = 0 then 0 else 1 := by
  unfold tileBlock
  by_cases h : r > 0 ∨ c > 0
  · rw [if_pos h, if_neg (by omega)]
    cases hp <;>
      simp [List.countP_append, List.countP_cons, isAddPage]
  · rw [if_neg h, if_pos (by omega)]
    cases hp <;>
      simp [List.countP_append, List.countP_cons, isAddPage]

/-- `addPage` count of one loop row: `C - 1` in the first row
(the very first tile appends no page), `C` in every other row. -/
lemma countP_addPage_row (hp : Bool) (vx vy sx sy : Option ℚ)
    (uw uh tq : ℚ) (cN : ℕ) (r C : ℕ) :
    ((List.range C).flatMap
      (fun c => tileBlock hp vx vy sx sy uw uh tq cN r c)).countP isAddPage =
      if r = 0 then C - 1 else C := by
  induction C with
  | zero => simp
  | succ m ih =>
    rw [List.range_succ, List.flatMap_append, List.countP_append, ih]
    simp only [List.flatMap_cons, List.flatMap_nil, List.append_nil]
    rw [countP_isAddPage_tileBlock]
    by_cases hr : r = 0
    · by_cases hm : m = 0
      · simp [hr, hm]
      · simp [hr, hm]
        omega
    · simp [hr]

/-- `addPage` count of the whole tile loop: `R*C - 1` pages are
appended beyond the first (0 when the grid is empty). -/
lemma countP_addPage_trace (hp : Bool) (vx vy sx sy : Option ℚ)
    (uw uh tq : ℚ) (cN : ℕ) (R C : ℕ) :
    ((List.range R).flatMap (fun r => (List.range C).flatMap
      (fun c => tileBlock hp vx vy sx sy uw uh tq cN r c))).countP isAddPage =
      if R = 0 ∨ C = 0 then 0 else R * C - 1 := by
  induction R with
  | zero => simp
  | succ m ih =>
    rw [List.range_succ, List.flatMap_append, List.countP_append, ih]
    simp only [List.flatMap_cons, List.flatMap_nil, List.append_nil]
    rw [countP_addPage_row]
    by_cases hC : C = 0
    · simp [hC]
    · by_cases hm : m = 0
      · subst hm
        simp [hC]
      · rw [if_neg (by omega), if_neg hm, if_neg (by omega), Nat.succ_mul]
        have h1 : 1 ≤ m * C := Nat.one_le_iff_ne_zero.mpr (Nat.mul_ne_zero hm hC)
        omega

/-- C1: with positive usable width and height, `generateTiledPDF`
computes `cols = ceil(widthMM/usableW)`, `rows = ceil(heightMM/usableH)`
and `totalTiles = cols * rows`, the grid covers the physical extent
(`cols*usableW ≥ widthMM`, `rows*usableH ≥ heightMM`), and `addPage`
is issued exactly `totalTiles - 1` times; concretely, the 400×400 mm
document on 210×297 mm paper with 10 mm margin yields
`usableW = 190`, `usableH = 277`, `cols = 3`, `rows = 2`, 6 tiles
and exactly 5 appended pages beyond the first. -/
theorem C1_grid_planning :
    (∀ (o : PdfOptions) (hv : ℚ), 10 ≤ o.margin →
      0 < usableWidth o → 0 < usableHeight o → svgHeight o = some hv →
      (generateTiledPDF o =
          .ok ⟨totalTiles o, gridRows o, gridCols o, pdfTrace o⟩ ∧
        gridCols o = ⌈svgWidth o / usableWidth o⌉ ∧
        gridRows o = some ⌈hv / usableHeight o⌉ ∧
        totalTiles o = some (gridCols o * ⌈hv / usableHeight o⌉) ∧
        svgWidth o ≤ (gridCols o : ℚ) * usableWidth o ∧
        hv ≤ ((⌈hv / usableHeight o⌉ : ℤ) : ℚ) * usableHeight o ∧
        (0 < svgWidth o → 0 < hv →
          ((pdfTrace o).countP isAddPage : ℤ) =
            gridCols o * ⌈hv / usableHeight o⌉ - 1))) ∧
    usableWidth ex400 = 190 ∧ usableHeight ex400 = 277 ∧
    (generateTiledPDF ex400).map
      (fun res => (res.cols, res.rows, res.tiles, res.trace.countP isAddPage)) =
      .ok (3, some 2, some 6, 5) := by
  refine ⟨?_, by with_unfolding_all rfl, by with_unfolding_all rfl,
    by with_unfolding_all rfl⟩
  intro o hv hm hW hH hsh
  have hrows : gridRows o = some ⌈hv / usableHeight o⌉ := by
    unfold gridRows
    rw [hsh]
    rfl
  refine ⟨by simp [generateTiledPDF, not_lt.mpr hm], rfl, hrows, ?_, ?_, ?_, ?_⟩
  · unfold totalTiles
    rw [hrows]
    rfl
  · exact le_ceil_mul _ _ hW
  · exact le_ceil_mul _ _ hH
  · intro hw hhv
    have hc1 : 0 < gridCols o := by
      unfold gridCols
      exact Int.ceil_pos.mpr (div_pos hw hW)
    have hr1 : 0 < ⌈hv / usableHeight o⌉ :=
      Int.ceil_pos.mpr (div_pos hhv hH)
    have hrN : rowsN o = (⌈hv / usableHeight o⌉).toNat := by
      unfold rowsN
      rw [hrows]
      rfl
    have hcN : colsN o = (gridCols o).toNat := rfl
    unfold pdfTrace
    rw [countP_addPage_trace, hrN, hcN,
      if_neg (by push_neg; constructor <;> omega)]
    have h1 : 1 ≤ (⌈hv / usableHeight o⌉).toNat * (gridCols o).toNat :=
      Nat.one_le_iff_ne_zero.mpr (Nat.mul_ne_zero (by omega) (by omega))
    rw [Nat.cast_sub h1]
    push_cast
    rw [Int.toNat_of_nonneg (le_of_lt hr1), Int.toNat_of_nonneg (le_of_lt hc1)]
    ring

/-- Witness for C1 at the 400×400 mm document on A4 paper. -/
theorem C1_grid_planning_witness :
    (10 ≤ ex400.margin ∧ 0 < usableWidth ex400 ∧ 0 < usableHeight ex400 ∧
      svgHeight ex400 = some 400) ∧
    (generateTiledPDF ex400 =
        .ok ⟨totalTiles ex400, gridRows ex400, gridCols ex400, pdfTrace ex400⟩ ∧
      gridCols ex400 = ⌈svgWidth ex400 / usableWidth ex400⌉ ∧
      gridRows ex400 = some ⌈(400 : ℚ) / usableHeight ex400⌉ ∧
      totalTiles ex400 = some (gridCols ex400 * ⌈(400 : ℚ) / usableHeight ex400⌉) ∧
      svgWidth ex400 ≤ (gridCols ex400 : ℚ) * usableWidth ex400 ∧
      (400 : ℚ) ≤ ((⌈(400 : ℚ) / usableHeight ex400⌉ : ℤ) : ℚ) * usableHeight ex400 ∧
      (0 < svgWidth ex400 → 0 < (400 : ℚ) →
        ((pdfTrace ex400).countP isAddPage : ℤ) =
          gridCols ex400 * ⌈(400 : ℚ) / usableHeight ex400⌉ - 1)) :=
  ⟨⟨by norm_num [ex400], by with_unfolding_all decide, by with_unfolding_all decide,
      by with_unfolding_all rfl⟩,
    C1_grid_planning.1 ex400 400 (by norm_num [ex400])
      (by with_unfolding_all decide) (by with_unfolding_all decide)
      (by with_unfolding_all rfl)⟩

/-- The resolved width does not depend on the `height` attribute:
the viewBox-fallback guard tests both axes, but the per-axis
assignment inside it is guarded by that axis's own falsiness. -/
lemma getSvgDimensions_width_height_indep (w h h' vb : Option String) :
    (getSvgDimensionsInMM ⟨w, h, vb⟩).1 = (getSvgDimensionsInMM ⟨w, h', vb⟩).1 := by
  unfold getSvgDimensionsInMM
  cases vb with
  | none => rfl
  | some s =>
    by_cases hw : isFalsy (parseUnit w) <;>
      by_cases hh : isFalsy (parseUnit h) <;>
        by_cases hh' : isFalsy (parseUnit h') <;>
          by_cases hs : s = "" <;>
            by_cases hlen : (splitFloats s).length = 4 <;>
              simp [hw, hh, hh', hs, hlen]

/-- `generateTiledPDF` factors through `svgWidth`, `vbParts` and the
paper parameters: two option records agreeing on those agree on the
result. -/
lemma generateTiledPDF_congr (o₁ o₂ : PdfOptions)
    (hsw : svgWidth o₁ = svgWidth o₂) (hvp : vbParts o₁ = vbParts o₂)
    (hpw : o₁.paperWidth = o₂.paperWidth)
    (hph : o₁.paperHeight = o₂.paperHeight)
    (hm : o₁.margin = o₂.margin)
    (hhp : o₁.hasProgress = o₂.hasProgress) :
    generateTiledPDF o₁ = generateTiledPDF o₂ := by
  have h1 : usableWidth o₁ = usableWidth o₂ := by
    unfold usableWidth
    rw [hpw, hm]
  have h2 : usableHeight o₁ = usableHeight o₂ := by
    unfold usableHeight
    rw [hph, hm]
  have h3 : vbX o₁ = vbX o₂ := by
    unfold vbX
    rw [hvp]
  have h4 : vbY o₁ = vbY o₂ := by
    unfold vbY
    rw [hvp]
  have h5 : vbWpart o₁ = vbWpart o₂ := by
    unfold vbWpart
    rw [hvp]
  have h6 : vbHpart o₁ = vbHpart o₂ := by
    unfold vbHpart
    rw [hvp]
  have h7 : svgHeight o₁ = svgHeight o₂ := by
    unfold svgHeight
    rw [h5, h6, hsw]
  have h8 : gridCols o₁ = gridCols o₂ := by
    unfold gridCols
    rw [hsw, h1]
  have h9 : gridRows o₁ = gridRows o₂ := by
    unfold gridRows
    rw [h7, h2]
  have h10 : totalTiles o₁ = totalTiles o₂ := by
    unfold totalTiles
    rw [h9, h8]
  have h11 : scaleX o₁ = scaleX o₂ := by
    unfold scaleX
    rw [h5, hsw]
  have h12 : scaleY o₁ = scaleY o₂ := by
    unfold scaleY
    rw [h6, h7]
  have h13 : rowsN o₁ = rowsN o₂ := by
    unfold rowsN
    rw [h9]
  have h14 : colsN o₁ = colsN o₂ := by
    unfold colsN
    rw [h8]
  have h15 : pdfTrace o₁ = pdfTrace o₂ := by
    unfold pdfTrace
    rw [h13, h14, hhp, h3, h4, h11, h12, h1, h2, h10]
  unfold generateTiledPDF
  rw [hm, h10, h9, h8, h15]

/-- C5: when the document declares its native viewBox, the physical
height used for layout is `widthMM * vbH / vbW` - derived from the
width and the native aspect ratio - so `widthMM / heightMM = vbW / vbH`,
and the declared `height` attribute (conflicting or not) never
influences the result of `generateTiledPDF` (grid included). -/
theorem C5_height_from_aspect_ratio :
    (∀ (o : PdfOptions) (vb : String) (a b : ℚ), o.svg.viewBox = some vb →
      vbWpart o = some a → vbHpart o = some b → a ≠ 0 → b ≠ 0 →
      (svgHeight o = some (svgWidth o * b / a) ∧
        svgWidth o / (svgWidth o * b / a) = a / b)) ∧
    (∀ (w h₁ h₂ : Option String) (vb : String) (pw ph m : ℚ) (hp : Bool),
      generateTiledPDF ⟨⟨w, h₁, some vb⟩, pw, ph, m, hp⟩ =
        generateTiledPDF ⟨⟨w, h₂, some vb⟩, pw, ph, m, hp⟩) := by
  constructor
  · intro o vb a b hvb hA hB ha hb
    have hw0 : svgWidth o ≠ 0 := by
      unfold svgWidth
      exact orDefault_ne_zero _ _ (by norm_num)
    constructor
    · unfold svgHeight
      rw [hA, hB]
      simp only [div_div_eq_mul_div]
    · field_simp
      ring
  · intro w h₁ h₂ vb pw ph m hp
    apply generateTiledPDF_congr
    · exact getSvgDimensions_width_height_indep w h₁ h₂ (some vb)
    · unfold vbParts effectiveViewBox
      rfl
    · rfl
    · rfl
    · rfl
    · rfl

/-- Witness for C5 at the 400×400 document (native viewBox 400×400). -/
theorem C5_height_from_aspect_ratio_witness :
    (ex400.svg.viewBox = some "0 0 400 400" ∧
      vbWpart ex400 = some 400 ∧ vbHpart ex400 = some 400 ∧
      (400 : ℚ) ≠ 0 ∧ (400 : ℚ) ≠ 0) ∧
    (svgHeight ex400 = some (svgWidth ex400 * 400 / 400) ∧
      svgWidth ex400 / (svgWidth ex400 * 400 / 400) = 400 / 400) :=
  ⟨⟨rfl, by with_unfolding_all rfl, by with_unfolding_all rfl,
      by norm_num, by norm_num⟩,
    (C5_height_from_aspect_ratio.1 ex400 "0 0 400 400" 400 400 rfl
      (by with_unfolding_all rfl) (by with_unfolding_all rfl)
      (by norm_num) (by norm_num))⟩

/-- Traces in which every `progress` event is immediately followed
by a `render` event (the callback fires strictly before the tile's
render request is issued, never after it). -/
inductive ProgOk : List Event → Prop
  | nil : ProgOk []
  | consProg (p : ℤ) (m : String) (x y w h : Option ℚ) (rest : List Event) :
      ProgOk (Event.render x y w h :: rest) →
      ProgOk (Event.progress p m :: Event.render x y w h :: rest)
  | consOther (e : Event) (rest : List Event) :
      isProgress e = false → ProgOk rest → ProgOk (e :: rest)

/-- Appending one tile block preserves `ProgOk`: inside a block the
progress event (when present) is immediately followed by the render
request. -/
lemma progOk_tileBlock_append (hp : Bool) (vx vy sx sy : Option ℚ)
    (uw uh tq : ℚ) (cN r c : ℕ) (rest : List Event) (h : ProgOk rest) :
    ProgOk (tileBlock hp vx vy sx sy uw uh tq cN r c ++ rest) := by
  unfold tileBlock
  by_cases h1 : r > 0 ∨ c > 0 <;> cases hp <;>
    simp only [if_pos, if_neg, h1, if_true, if_false, Bool.false_eq_true,
      List.nil_append, List.cons_append, List.append_nil, ite_true, ite_false]
  · exact ProgOk.consOther _ _ rfl (ProgOk.consOther _ _ rfl h)
  · exact ProgOk.consOther _ _ rfl (ProgOk.consProg _ _ _ _ _ _ _
      (ProgOk.consOther _ _ rfl h))
  · exact ProgOk.consOther _ _ rfl h
  · exact ProgOk.consProg _ _ _ _ _ _ _ (ProgOk.consOther _ _ rfl h)

/-- One loop row preserves `ProgOk` when appended to a good trace. -/
lemma progOk_row_append (hp : Bool) (vx vy sx sy : Option ℚ)
    (uw uh tq : ℚ) (cN r : ℕ) (C : ℕ) :
    ∀ rest : List Event, ProgOk rest →
      ProgOk ((List.range C).flatMap
        (fun c => tileBlock hp vx vy sx sy uw uh tq cN r c) ++ rest) := by
  induction C with
  | zero =>
    intro rest h
    simpa using h
  | succ m ih =>
    intro rest h
    rw [List.range_succ, List.flatMap_append, List.flatMap_singleton,
      List.append_assoc]
    exact ih _ (progOk_tileBlock_append hp vx vy sx sy uw uh tq cN r m rest h)

/-- The whole tile loop trace satisfies `ProgOk`. -/
lemma progOk_rows_append (hp : Bool) (vx vy sx sy : Option ℚ)
    (uw uh tq : ℚ) (cN C : ℕ) (R : ℕ) :
    ∀ rest : List Event, ProgOk rest →
      ProgOk ((List.range R).flatMap (fun r => (List.range C).flatMap
        (fun c => tileBlock hp vx vy sx sy uw uh tq cN r c)) ++ rest) := by
  induction R with
  | zero =>
    intro rest h
    simpa using h
  | succ m ih =>
    intro rest h
    rw [List.range_succ, List.flatMap_append, List.flatMap_singleton,
      List.append_assoc]
    exact ih _ (progOk_row_append hp vx vy sx sy uw uh tq cN m C rest h)

/-- Every progress event in the trace of `generateTiledPDF` is
immediately followed by a render request. -/
lemma progOk_pdfTrace (o : PdfOptions) : ProgOk (pdfTrace o) := by
  unfold pdfTrace
  rw [← List.append_nil ((List.range (rowsN o)).flatMap _)]
  exact progOk_rows_append _ _ _ _ _ _ _ _ _ _ _ _ ProgOk.nil

/-- In a `ProgOk` trace, the event right after any progress event is
a render request. -/
lemma ProgOk.getElem_succ {l : List Event} (h : ProgOk l) :
    ∀ (i : ℕ) (p : ℤ) (m : String), l[i]? = some (Event.progress p m) →
      ∃ x y w hh, l[i + 1]? = some (Event.render x y w hh) := by
  induction h with
  | nil =>
    intro i p m hi
    simp at hi
  | consProg p' m' x y w hh rest _ ih =>
    intro i p m hi
    cases i with
    | zero => exact ⟨x, y, w, hh, by simp⟩
    | succ j =>
      rw [List.getElem?_cons_succ] at hi
      rw [List.getElem?_cons_succ]
      exact ih j p m hi
  | consOther e rest he _ ih =>
    intro i p m hi
    cases i with
    | zero =>
      rw [List.getElem?_cons_zero] at hi
      cases e <;> simp_all [isProgress]
    | succ j =>
      rw [List.getElem?_cons_succ] at hi
      rw [List.getElem?_cons_succ]
      exact ih j p m hi

/-- The progress events of a trace, in order. -/
def progressEvents (t : List Event) : List (ℤ × String) :=
  t.filterMap (fun e =>
    match e with
    | .progress p m => some (p, m)
    | _ => Option.none)

/-- A tile block with the callback present contributes exactly one
progress event, carrying the row-major 1-based `processedCount`. -/
lemma progressEvents_tileBlock (vx vy sx sy : Option ℚ)
    (uw uh tq : ℚ) (cN r c : ℕ) :
    progressEvents (tileBlock true vx vy sx sy uw uh tq cN r c) =
      [(jsRound (((r * cN + c + 1 : ℕ) : ℚ) / tq * 100),
        "Generating Tile " ++ toString (r + 1) ++ "-" ++ toString (c + 1) ++ "...")] := by
  unfold tileBlock progressEvents
  by_cases h1 : r > 0 ∨ c > 0 <;> simp [h1]

/-- With the callback present, the trace's progress events are, in
row-major order, exactly one per tile with
`pct = round(processedCount / totalTiles * 100)` and a message naming
the tile `(r+1)-(c+1)`. -/
lemma progressEvents_pdfTrace (o : PdfOptions) (hp : o.hasProgress = true) :
    progressEvents (pdfTrace o) =
      (List.range (rowsN o)).flatMap (fun r =>
        (List.range (colsN o)).map (fun c =>
          (jsRound (((r * colsN o + c + 1 : ℕ) : ℚ) /
              (((totalTiles o).getD 0 : ℤ) : ℚ) * 100),
           "Generating Tile " ++ toString (r + 1) ++ "-" ++ toString (c + 1) ++ "..."))) := by
  unfold pdfTrace progressEvents
  rw [hp, List.filterMap_flatMap]
  refine List.flatMap_congr fun r _ => ?_
  rw [List.filterMap_flatMap, List.map_eq_flatMap]
  refine List.flatMap_congr fun c _ => ?_
  exact progressEvents_tileBlock (vbX o) (vbY o) (scaleX o) (scaleY o)
    (usableWidth o) (usableHeight o) _ (colsN o) r c

/-- `Math.round` of a value in `[0, 100]` stays in `[0, 100]`. -/
lemma jsRound_nonneg (x : ℚ) (h : 0 ≤ x) : 0 ≤ jsRound x :=
  Int.floor_nonneg.mpr (by linarith)

/-- `Math.round` of a value at most 100 is at most 100. -/
lemma jsRound_le_100 (x : ℚ) (h : x ≤ 100) : jsRound x ≤ 100 := by
  have : jsRound x < 101 := Int.floor_lt.mpr (by push_cast; linarith)
  omega

/-- `Math.round 100 = 100`. -/
lemma jsRound_100 : jsRound 100 = 100 := by
  unfold jsRound
  rw [Int.floor_eq_iff]
  norm_num

/-- `progressEvents` has one entry per progress event. -/
lemma length_progressEvents (t : List Event) :
    (progressEvents t).length = t.countP isProgress := by
  induction t with
  | nil => rfl
  | cons e rest ih =>
    cases e with
    | addPage =>
      simpa [progressEvents, isProgress, List.countP_cons, List.filterMap_cons]
        using ih
    | progress p m =>
      simpa [progressEvents, isProgress, List.countP_cons, List.filterMap_cons]
        using ih
    | render x y w h =>
      simpa [progressEvents, isProgress, List.countP_cons, List.filterMap_cons]
        using ih

/-- Length of a row-major grid enumeration. -/
lemma length_flatMap_map {α : Type} (R C : ℕ) (g : ℕ → ℕ → α) :
    ((List.range R).flatMap (fun r => (List.range C).map (g r))).length = R * C := by
  rw [List.length_flatMap]
  have h : ∀ r ∈ List.range R,
      (List.length ∘ fun r => (List.range C).map (g r)) r = (fun _ : ℕ => C) r := by
    intro r _
    simp
  rw [List.map_congr_left h, List.map_const', List.length_range,
    List.sum_replicate, smul_eq_mul]

/-- C9: with a callback supplied, the progress callback fires exactly
once per tile, immediately before that tile's render request (never
after it), with `pct = round(100 * completedCount / totalTiles)` for
the 1-based row-major `completedCount`, a message naming the tile
`(row+1)-(col+1)`, every reported percentage in `[0, 100]`, and
exactly 100 reported on the last tile. -/
theorem C9_progress_callback (o : PdfOptions) (hv : ℚ)
    (hcb : o.hasProgress = true) (hm : 10 ≤ o.margin)
    (hW : 0 < usableWidth o) (hH : 0 < usableHeight o)
    (hsh : svgHeight o = some hv) (hw : 0 < svgWidth o) (hv0 : 0 < hv) :
    generateTiledPDF o = .ok ⟨totalTiles o, gridRows o, gridCols o, pdfTrace o⟩ ∧
    ((pdfTrace o).countP isProgress : ℤ) = (totalTiles o).getD 0 ∧
    progressEvents (pdfTrace o) =
      (List.range (rowsN o)).flatMap (fun r =>
        (List.range (colsN o)).map (fun c =>
          (jsRound (((r * colsN o + c + 1 : ℕ) : ℚ) /
              (((totalTiles o).getD 0 : ℤ) : ℚ) * 100),
           "Generating Tile " ++ toString (r + 1) ++ "-" ++ toString (c + 1) ++ "..."))) ∧
    (∀ (i : ℕ) (p : ℤ) (m : String),
      (pdfTrace o)[i]? = some (Event.progress p m) →
      ∃ x y w h, (pdfTrace o)[i + 1]? = some (Event.render x y w h)) ∧
    (∀ (p : ℤ) (m : String), (p, m) ∈ progressEvents (pdfTrace o) →
      0 ≤ p ∧ p ≤ 100) ∧
    ((100 : ℤ), "Generating Tile " ++ toString (rowsN o) ++ "-" ++
        toString (colsN o) ++ "...") ∈ progressEvents (pdfTrace o) := by
  have hrows : gridRows o = some ⌈hv / usableHeight o⌉ := by
    unfold gridRows
    rw [hsh]
    rfl
  have hr1 : 0 < ⌈hv / usableHeight o⌉ := Int.ceil_pos.mpr (div_pos hv0 hH)
  have hc1 : 0 < gridCols o := by
    unfold gridCols
    exact Int.ceil_pos.mpr (div_pos hw hW)
  have hrN : rowsN o = (⌈hv / usableHeight o⌉).toNat := by
    unfold rowsN
    rw [hrows]
    rfl
  have hcN : colsN o = (gridCols o).toNat := rfl
  have hrN1 : 1 ≤ rowsN o := by
    rw [hrN]
    omega
  have hcN1 : 1 ≤ colsN o := by
    rw [hcN]
    omega
  have hTz : ((rowsN o * colsN o : ℕ) : ℤ) = (totalTiles o).getD 0 := by
    unfold totalTiles
    rw [hrows]
    show ((rowsN o * colsN o : ℕ) : ℤ) = gridCols o * ⌈hv / usableHeight o⌉
    rw [hrN, hcN]
    push_cast [Int.toNat_of_nonneg (le_of_lt hr1),
      Int.toNat_of_nonneg (le_of_lt hc1)]
    ring
  have hTQ : (((totalTiles o).getD 0 : ℤ) : ℚ) = ((rowsN o * colsN o : ℕ) : ℚ) := by
    rw [← hTz]
    push_cast
    ring
  have hTQpos : (0 : ℚ) < (((totalTiles o).getD 0 : ℤ) : ℚ) := by
    rw [hTQ]
    have : 1 ≤ rowsN o * colsN o := Nat.one_le_iff_ne_zero.mpr
      (Nat.mul_ne_zero (by omega) (by omega))
    exact_mod_cast this
  refine ⟨by simp [generateTiledPDF, not_lt.mpr hm], ?_, ?_, ?_, ?_, ?_⟩
  · rw [← length_progressEvents, progressEvents_pdfTrace o hcb,
      length_flatMap_map]
    exact hTz
  · exact progressEvents_pdfTrace o hcb
  · exact (progOk_pdfTrace o).getElem_succ
  · intro p m hmem
    rw [progressEvents_pdfTrace o hcb] at hmem
    rw [List.mem_flatMap] at hmem
    obtain ⟨r, hr, hmem2⟩ := hmem
    rw [List.mem_map] at hmem2
    obtain ⟨c, hc, heq⟩ := hmem2
    rw [List.mem_range] at hr
    rw [List.mem_range] at hc
    obtain ⟨hp', _⟩ := Prod.mk.injEq .. ▸ heq
    have hpc : r * colsN o + c + 1 ≤ rowsN o * colsN o := by
      have h2 : r * colsN o + c + 1 ≤ (r + 1) * colsN o := by
        rw [Nat.succ_mul]
        omega
      exact le_trans h2 (Nat.mul_le_mul_right _ (by omega))
    have harg0 : (0 : ℚ) ≤
        ((r * colsN o + c + 1 : ℕ) : ℚ) /
          (((totalTiles o).getD 0 : ℤ) : ℚ) * 100 := by
      have : (0 : ℚ) ≤ ((r * colsN o + c + 1 : ℕ) : ℚ) := by positivity
      positivity
    have harg1 : ((r * colsN o + c + 1 : ℕ) : ℚ) /
        (((totalTiles o).getD 0 : ℤ) : ℚ) * 100 ≤ 100 := by
      have hle : ((r * colsN o + c + 1 : ℕ) : ℚ) /
          (((totalTiles o).getD 0 : ℤ) : ℚ) ≤ 1 := by
        rw [div_le_one hTQpos, hTQ]
        exact_mod_cast hpc
      nlinarith
    rw [← hp']
    exact ⟨jsRound_nonneg _ harg0, jsRound_le_100 _ harg1⟩
  · rw [progressEvents_pdfTrace o hcb, List.mem_flatMap]
    refine ⟨rowsN o - 1, List.mem_range.mpr (by omega), ?_⟩
    rw [List.mem_map]
    refine ⟨colsN o - 1, List.mem_range.mpr (by omega), ?_⟩
    have hpc : (rowsN o - 1) * colsN o + (colsN o - 1) + 1 = rowsN o * colsN o := by
      obtain ⟨R', hR'⟩ : ∃ R', rowsN o = R' + 1 := ⟨rowsN o - 1, by omega⟩
      rw [hR', Nat.succ_mul]
      simp
      omega
    have hfrac : ((((rowsN o - 1) * colsN o + (colsN o - 1) + 1 : ℕ)) : ℚ) /
        (((totalTiles o).getD 0 : ℤ) : ℚ) * 100 = 100 := by
      rw [hpc, hTQ, div_self (by positivity), one_mul]
    rw [Prod.mk.injEq]
    constructor
    · rw [hfrac]
      exact jsRound_100
    · have h1 : rowsN o - 1 + 1 = rowsN o := by omega
      have h2 : colsN o - 1 + 1 = colsN o := by omega
      rw [h1, h2]

/-- Witness for C9 at the 400×400 document (6 tiles, callback on). -/
theorem C9_progress_callback_witness :
    (ex400.hasProgress = true ∧ 10 ≤ ex400.margin ∧
      0 < usableWidth ex400 ∧ 0 < usableHeight ex400 ∧
      svgHeight ex400 = some 400 ∧ 0 < svgWidth ex400 ∧ (0 : ℚ) < 400) ∧
    (generateTiledPDF ex400 =
        .ok ⟨totalTiles ex400, gridRows ex400, gridCols ex400, pdfTrace ex400⟩ ∧
      ((pdfTrace ex400).countP isProgress : ℤ) = (totalTiles ex400).getD 0 ∧
      progressEvents (pdfTrace ex400) =
        (List.range (rowsN ex400)).flatMap (fun r =>
          (List.range (colsN ex400)).map (fun c =>
            (jsRound (((r * colsN ex400 + c + 1 : ℕ) : ℚ) /
                (((totalTiles ex400).getD 0 : ℤ) : ℚ) * 100),
             "Generating Tile " ++ toString (r + 1) ++ "-" ++ toString (c + 1) ++ "..."))) ∧
      (∀ (i : ℕ) (p : ℤ) (m : String),
        (pdfTrace ex400)[i]? = some (Event.progress p m) →
        ∃ x y w h, (pdfTrace ex400)[i + 1]? = some (Event.render x y w h)) ∧
      (∀ (p : ℤ) (m : String), (p, m) ∈ progressEvents (pdfTrace ex400) →
        0 ≤ p ∧ p ≤ 100) ∧
      ((100 : ℤ), "Generating Tile " ++ toString (rowsN ex400) ++ "-" ++
          toString (colsN ex400) ++ "...") ∈ progressEvents (pdfTrace ex400)) :=
  ⟨⟨rfl, by norm_num [ex400], by with_unfolding_all decide,
      by with_unfolding_all decide, by with_unfolding_all rfl,
      by with_unfolding_all decide, by norm_num⟩,
    C9_progress_callback ex400 400 rfl (by norm_num [ex400])
      (by with_unfolding_all decide) (by with_unfolding_all decide)
      (by with_unfolding_all rfl) (by with_unfolding_all decide) (by norm_num)⟩

/-- Consecutive abutting windows of width `s > 0` starting at `a`
cover the interval `[a, a + (n+1)*s]`. -/
lemma stepsCover (a s : ℚ) (hs : 0 < s) (n : ℕ) :
    ∀ t : ℚ, a ≤ t → t ≤ a + ((n : ℚ) + 1) * s →
      ∃ k : ℕ, k < n + 1 ∧ a + (k : ℚ) * s ≤ t ∧ t ≤ a + (k : ℚ) * s + s := by
  induction n with
  | zero =>
    intro t h1 h2
    refine ⟨0, Nat.one_pos, by simpa using h1, ?_⟩
    push_cast at h2 ⊢
    linarith
  | succ m ih =>
    intro t h1 h2
    by_cases hc : t ≤ a + ((m : ℚ) + 1) * s
    · obtain ⟨k, hk, h3, h4⟩ := ih t h1 hc
      exact ⟨k, by omega, h3, h4⟩
    · push_neg at hc
      refine ⟨m + 1, by omega, ?_, ?_⟩
      · push_cast
        linarith
      · push_cast at h2 ⊢
        linarith

/-- C6: each tile renders the native sub-rectangle
`tileX = vx + col*usableW*scaleX`, `tileY = vy + row*usableH*scaleY`,
`tileW = usableW*scaleX`, `tileH = usableH*scaleY` with
`scaleX = vw/widthMM`, `scaleY = vh/heightMM`; horizontally and
vertically adjacent sub-rectangles abut exactly, and the windows of
one axis cover the native extent `[vx, vx+vw]` (resp. `[vy, vy+vh]`),
so the `rows*cols` sub-rectangles cover the full native box. -/
theorem C6_tile_coordinate_mapping (o : PdfOptions) (hv vxv vyv vwv vhv : ℚ)
    (hm : 10 ≤ o.margin)
    (hvx : vbX o = some vxv) (hvy : vbY o = some vyv)
    (hvw : vbWpart o = some vwv) (hvh : vbHpart o = some vhv)
    (hsh : svgHeight o = some hv)
    (hw : 0 < svgWidth o) (hv0 : 0 < hv)
    (hW : 0 < usableWidth o) (hH : 0 < usableHeight o)
    (hvw0 : 0 < vwv) (hvh0 : 0 < vhv) :
    generateTiledPDF o = .ok ⟨totalTiles o, gridRows o, gridCols o, pdfTrace o⟩ ∧
    scaleX o = some (vwv / svgWidth o) ∧
    scaleY o = some (vhv / hv) ∧
    (∀ r c : ℕ, r < rowsN o → c < colsN o →
      Event.render (some (vxv + ((c : ℚ) * usableWidth o) * (vwv / svgWidth o)))
        (some (vyv + ((r : ℚ) * usableHeight o) * (vhv / hv)))
        (some (usableWidth o * (vwv / svgWidth o)))
        (some (usableHeight o * (vhv / hv))) ∈ pdfTrace o) ∧
    (∀ c : ℕ, vxv + (((c : ℚ) + 1) * usableWidth o) * (vwv / svgWidth o) =
      vxv + ((c : ℚ) * usableWidth o) * (vwv / svgWidth o) +
        usableWidth o * (vwv / svgWidth o)) ∧
    (∀ r : ℕ, vyv + (((r : ℚ) + 1) * usableHeight o) * (vhv / hv) =
      vyv + ((r : ℚ) * usableHeight o) * (vhv / hv) +
        usableHeight o * (vhv / hv)) ∧
    (∀ t : ℚ, vxv ≤ t → t ≤ vxv + vwv →
      ∃ c : ℕ, c < colsN o ∧
        vxv + ((c : ℚ) * usableWidth o) * (vwv / svgWidth o) ≤ t ∧
        t ≤ vxv + ((c : ℚ) * usableWidth o) * (vwv / svgWidth o) +
          usableWidth o * (vwv / svgWidth o)) ∧
    (∀ t : ℚ, vyv ≤ t → t ≤ vyv + vhv →
      ∃ r : ℕ, r < rowsN o ∧
        vyv + ((r : ℚ) * usableHeight o) * (vhv / hv) ≤ t ∧
        t ≤ vyv + ((r : ℚ) * usableHeight o) * (vhv / hv) +
          usableHeight o * (vhv / hv)) := by
  have hsx : scaleX o = some (vwv / svgWidth o) := by
    unfold scaleX
    rw [hvw]
    rfl
  have hsy : scaleY o = some (vhv / hv) := by
    unfold scaleY
    rw [hvh, hsh]
  have hrows : gridRows o = some ⌈hv / usableHeight o⌉ := by
    unfold gridRows
    rw [hsh]
    rfl
  have hr1 : 0 < ⌈hv / usableHeight o⌉ := Int.ceil_pos.mpr (div_pos hv0 hH)
  have hc1 : 0 < gridCols o := by
    unfold gridCols
    exact Int.ceil_pos.mpr (div_pos hw hW)
  have hrN : rowsN o = (⌈hv / usableHeight o⌉).toNat := by
    unfold rowsN
    rw [hrows]
    rfl
  have hcN : colsN o = (gridCols o).toNat := rfl
  have hrN1 : 1 ≤ rowsN o := by
    rw [hrN]
    omega
  have hcN1 : 1 ≤ colsN o := by
    rw [hcN]
    omega
  refine ⟨by simp [generateTiledPDF, not_lt.mpr hm], hsx, hsy, ?_, ?_, ?_, ?_, ?_⟩
  · intro r c hr hc
    unfold pdfTrace
    rw [List.mem_flatMap]
    refine ⟨r, List.mem_range.mpr hr, ?_⟩
    rw [List.mem_flatMap]
    refine ⟨c, List.mem_range.mpr hc, ?_⟩
    rw [hvx, hvy, hsx, hsy]
    unfold tileBlock
    simp [tileCoord, tileExtent]
  · intro c
    ring
  · intro r
    ring
  · intro t h1 h2
    have hstep : 0 < usableWidth o * (vwv / svgWidth o) := by positivity
    obtain ⟨C1, hC1⟩ : ∃ C1, colsN o = C1 + 1 := ⟨colsN o - 1, by omega⟩
    have hcols : svgWidth o ≤ (gridCols o : ℚ) * usableWidth o :=
      le_ceil_mul _ _ hW
    have hcast : ((colsN o : ℕ) : ℚ) = ((gridCols o : ℤ) : ℚ) := by
      rw [hcN]
      exact_mod_cast Int.toNat_of_nonneg (le_of_lt hc1)
    have hwsx : svgWidth o * (vwv / svgWidth o) = vwv := by
      field_simp
    have hcovers : t ≤ vxv + ((C1 : ℚ) + 1) *
        (usableWidth o * (vwv / svgWidth o)) := by
      have hm1 : svgWidth o * (vwv / svgWidth o) ≤
          ((gridCols o : ℚ) * usableWidth o) * (vwv / svgWidth o) :=
        mul_le_mul_of_nonneg_right hcols (le_of_lt (div_pos hvw0 hw))
      have hknown : ((C1 : ℚ) + 1) = ((colsN o : ℕ) : ℚ) := by
        rw [hC1]
        push_cast
        ring
      rw [hknown, hcast]
      calc t ≤ vxv + vwv := h2
        _ = vxv + svgWidth o * (vwv / svgWidth o) := by rw [hwsx]
        _ ≤ vxv + ((gridCols o : ℚ) * usableWidth o) * (vwv / svgWidth o) := by
            linarith
        _ = vxv + ((gridCols o : ℤ) : ℚ) *
            (usableWidth o * (vwv / svgWidth o)) := by
            ring
    obtain ⟨k, hk, h3, h4⟩ := stepsCover vxv
      (usableWidth o * (vwv / svgWidth o)) hstep C1 t h1 hcovers
    have e : vxv + ((k : ℚ) * usableWidth o) * (vwv / svgWidth o) =
        vxv + (k : ℚ) * (usableWidth o * (vwv / svgWidth o)) := by ring
    exact ⟨k, by omega, by linarith, by linarith⟩
  · intro t h1 h2
    have hstep : 0 < usableHeight o * (vhv / hv) := by positivity
    obtain ⟨R1, hR1⟩ : ∃ R1, rowsN o = R1 + 1 := ⟨rowsN o - 1, by omega⟩
    have hrowsmul : hv ≤ ((⌈hv / usableHeight o⌉ : ℤ) : ℚ) * usableHeight o :=
      le_ceil_mul _ _ hH
    have hcast : ((rowsN o : ℕ) : ℚ) = ((⌈hv / usableHeight o⌉ : ℤ) : ℚ) := by
      rw [hrN]
      exact_mod_cast Int.toNat_of_nonneg (le_of_lt hr1)
    have hwsy : hv * (vhv / hv) = vhv := by
      field_simp
    have hcovers : t ≤ vyv + ((R1 : ℚ) + 1) *
        (usableHeight o * (vhv / hv)) := by
      have hm1 : hv * (vhv / hv) ≤
          (((⌈hv / usableHeight o⌉ : ℤ) : ℚ) * usableHeight o) * (vhv / hv) :=
        mul_le_mul_of_nonneg_right hrowsmul (le_of_lt (div_pos hvh0 hv0))
      have hknown : ((R1 : ℚ) + 1) = ((rowsN o : ℕ) : ℚ) := by
        rw [hR1]
        push_cast
        ring
      rw [hknown, hcast]
      calc t ≤ vyv + vhv := h2
        _ = vyv + hv * (vhv / hv) := by rw [hwsy]
        _ ≤ vyv + (((⌈hv / usableHeight o⌉ : ℤ) : ℚ) * usableHeight o) *
            (vhv / hv) := by linarith
        _ = vyv + ((⌈hv / usableHeight o⌉ : ℤ) : ℚ) *
            (usableHeight o * (vhv / hv)) := by ring
    obtain ⟨k, hk, h3, h4⟩ := stepsCover vyv
      (usableHeight o * (vhv / hv)) hstep R1 t h1 hcovers
    have e : vyv + ((k : ℚ) * usableHeight o) * (vhv / hv) =
        vyv + (k : ℚ) * (usableHeight o * (vhv / hv)) := by ring
    exact ⟨k, by omega, by linarith, by linarith⟩

/-- Witness for C6 at the 400×400 document on A4 paper. -/
theorem C6_tile_coordinate_mapping_witness :
    (10 ≤ ex400.margin ∧ vbX ex400 = some 0 ∧ vbY ex400 = some 0 ∧
      vbWpart ex400 = some 400 ∧ vbHpart ex400 = some 400 ∧
      svgHeight ex400 = some 400 ∧ 0 < svgWidth ex400 ∧ (0 : ℚ) < 400 ∧
      0 < usableWidth ex400 ∧ 0 < usableHeight ex400 ∧
      (0 : ℚ) < 400 ∧ (0 : ℚ) < 400) ∧
    (generateTiledPDF ex400 =
        .ok ⟨totalTiles ex400, gridRows ex400, gridCols ex400, pdfTrace ex400⟩ ∧
      scaleX ex400 = some (400 / svgWidth ex400) ∧
      scaleY ex400 = some (400 / 400) ∧
      (∀ r c : ℕ, r < rowsN ex400 → c < colsN ex400 →
        Event.render
          (some ((0 : ℚ) + ((c : ℚ) * usableWidth ex400) * (400 / svgWidth ex400)))
          (some ((0 : ℚ) + ((r : ℚ) * usableHeight ex400) * (400 / 400)))
          (some (usableWidth ex400 * (400 / svgWidth ex400)))
          (some (usableHeight ex400 * (400 / 400))) ∈ pdfTrace ex400) ∧
      (∀ c : ℕ, (0 : ℚ) + (((c : ℚ) + 1) * usableWidth ex400) * (400 / svgWidth ex400) =
        (0 : ℚ) + ((c : ℚ) * usableWidth ex400) * (400 / svgWidth ex400) +
          usableWidth ex400 * (400 / svgWidth ex400)) ∧
      (∀ r : ℕ, (0 : ℚ) + (((r : ℚ) + 1) * usableHeight ex400) * (400 / 400) =
        (0 : ℚ) + ((r : ℚ) * usableHeight ex400) * (400 / 400) +
          usableHeight ex400 * (400 / 400)) ∧
      (∀ t : ℚ, (0 : ℚ) ≤ t → t ≤ (0 : ℚ) + 400 →
        ∃ c : ℕ, c < colsN ex400 ∧
          (0 : ℚ) + ((c : ℚ) * usableWidth ex400) * (400 / svgWidth ex400) ≤ t ∧
          t ≤ (0 : ℚ) + ((c : ℚ) * usableWidth ex400) * (400 / svgWidth ex400) +
            usableWidth ex400 * (400 / svgWidth ex400)) ∧
      (∀ t : ℚ, (0 : ℚ) ≤ t → t ≤ (0 : ℚ) + 400 →
        ∃ r : ℕ, r < rowsN ex400 ∧
          (0 : ℚ) + ((r : ℚ) * usableHeight ex400) * (400 / 400) ≤ t ∧
          t ≤ (0 : ℚ) + ((r : ℚ) * usableHeight ex400) * (400 / 400) +
            usableHeight ex400 * (400 / 400))) :=
  ⟨⟨by norm_num [ex400], by with_unfolding_all rfl, by with_unfolding_all rfl,
      by with_unfolding_all rfl, by with_unfolding_all rfl,
      by with_unfolding_all rfl, by with_unfolding_all decide, by norm_num,
      by with_unfolding_all decide, by with_unfolding_all decide,
      by norm_num, by norm_num⟩,
    C6_tile_coordinate_mapping ex400 400 0 0 400 400 (by norm_num [ex400])
      (by with_unfolding_all rfl) (by with_unfolding_all rfl)
      (by with_unfolding_all rfl) (by with_unfolding_all rfl)
      (by with_unfolding_all rfl) (by with_unfolding_all decide) (by norm_num)
      (by with_unfolding_all decide) (by with_unfolding_all decide)
      (by norm_num) (by norm_num)⟩
